import Mathlib

/-!
Verification development for the cylon-bb8 BB8 BLE driver
(src/lib/driver.js).

The driver is a thin, callback-driven wrapper: each operation optionally
builds a packet through the external Sphero encoder and performs one
asynchronous characteristic write on the transport.  We embed it as a
state-transformer semantics:

* `St` is the observable state: the mutable `heading` field of the driver
  instance, plus two event logs — `writes`, the ordered list of
  characteristic writes handed to the transport, and `calls`, the ordered
  list of argument lists with which observer callbacks were invoked.
* The transport is a deterministic oracle `Transport : Nat → JSVal × JSVal`
  assigning to the n-th write its completion result `(err, data)`; the
  callback chaining of the JavaScript source collapses to sequential
  composition, so each method becomes a pure function `St → St`.
* The external Sphero encoder is uninterpreted: each
  `Sphero.commands.api.*` / `Sphero.commands.core.*` call becomes a
  constructor of the opaque `Packet` type carrying exactly the arguments
  the source passes.
* `new Buffer(value)` is modelled by the uninterpreted wrapper
  `JSVal.buffer`, applied uniformly in `writeServiceCharacteristic`
  exactly where the source applies it.
-/

namespace BB8

/-- BLE-management service UUID constant from the source. -/
def BLE_SERVICE : String := "22bb746f2bb075542d6f726568705327"

/-- Wake characteristic UUID constant from the source. -/
def BLE_WAKE : String := "22bb746f2bbf75542d6f726568705327"

/-- TX-power characteristic UUID constant from the source. -/
def BLE_TX_POWER : String := "22bb746f2bb275542d6f726568705327"

/-- Anti-DoS characteristic UUID constant from the source. -/
def BLE_ANTI_DOS : String := "22bb746f2bbd75542d6f726568705327"

/-- RSSI characteristic UUID constant from the source. -/
def BLE_RSSI : String := "22bb746f2bb675542d6f726568705327"

/-- Robot service UUID constant from the source. -/
def ROBOT_SERVICE : String := "22bb746f2ba075542d6f726568705327"

/-- Robot command characteristic UUID constant from the source. -/
def ROBOT_COMMAND : String := "22bb746f2ba175542d6f726568705327"

/-- Robot notify characteristic UUID constant from the source. -/
def ROBOT_NOTIFY : String := "22bb746f2ba675542d6f726568705327"

/-- Options record passed to the external Sphero encoder.
`requestAcknowledgement` is `none` when the source omits the key. -/
structure SpheroOpts where
  resetTimeout : Bool
  requestAcknowledgement : Option Bool
  deriving DecidableEq, Repr

/-- The `{resetTimeout: true}` options record. -/
def rtOpts : SpheroOpts := { resetTimeout := true, requestAcknowledgement := none }

/-- The `{resetTimeout: true, requestAcknowledgement: true}` options record. -/
def rtAckOpts : SpheroOpts := { resetTimeout := true, requestAcknowledgement := some true }

/-- Opaque packets produced by the external Sphero encoder.  One
constructor per encoder entry point the driver calls, carrying exactly the
arguments the source passes; the driver never inspects packet contents. -/
inductive Packet
  | apiSetRGB (color : Int) (persist : Bool) (opts : SpheroOpts)
  | apiRoll (speed heading state : Int) (opts : SpheroOpts)
  | apiSetRawMotorValues (lm lp rm rp : Int) (opts : SpheroOpts)
  | apiSetStabilization (enable : Int) (opts : SpheroOpts)
  | apiSetDataStreaming (sensorRateDivisor frames mask packetCount mask2 : Int)
      (opts : SpheroOpts)
  | apiGetDeviceMode (opts : SpheroOpts)
  | apiGetRGB (opts : SpheroOpts)
  | apiGetChassisID (opts : SpheroOpts)
  | coreGetPowerState (opts : SpheroOpts)
  deriving DecidableEq, Repr

/-- JavaScript values as far as the driver observes them: primitives,
byte arrays, encoder packets, `Buffer`-wrapped values, transport notifier
objects and opaque error objects. -/
inductive JSVal
  | null
  | undef
  | num (n : Int)
  | str (s : String)
  | bool (b : Bool)
  | bytes (bs : List Nat)
  | packet (p : Packet)
  | buffer (v : JSVal)
  | notifier (id : Nat)
  | errObj (id : Nat)
  deriving DecidableEq, Repr

/-- JavaScript truthiness of a `JSVal` (used by `if (error)` in
`getServiceCharacteristic`): `null`, `undefined`, `0`, `""` and `false`
are falsy; every other value, objects included, is truthy. -/
def truthy : JSVal → Bool
  | JSVal.null => false
  | JSVal.undef => false
  | JSVal.num n => n != 0
  | JSVal.str s => s != ""
  | JSVal.bool b => b
  | _ => true

/-- One characteristic write handed to the transport: the triple the
driver passes to `connection.writeServiceCharacteristic`. -/
structure Write where
  service : String
  char : String
  value : JSVal
  deriving DecidableEq, Repr

/-- Observable driver state: the instance's mutable `heading` field, the
ordered log of characteristic writes issued, and the ordered log of
argument lists delivered to observer callbacks. -/
structure St where
  heading : Int
  writes : List Write
  calls : List (List JSVal)
  deriving DecidableEq, Repr

/-- A computation is a state transformer (the callback chaining of the
source collapses to sequencing under a deterministic transport). -/
abbrev Comp := St → St

/-- The transport oracle: the completion result `(err, data)` the
transport reports for the n-th characteristic write. -/
abbrev Transport := Nat → JSVal × JSVal

/-- A JavaScript callback argument: either a function or a non-function
value (for example `undefined` when the caller omits it), mirroring the
`typeof callback === "function"` check in the source. -/
inductive CB
  | func (f : JSVal → JSVal → Comp)
  | nonfunc (v : JSVal)

/-- Observer callback body: logs the argument list it was invoked with. -/
def record (args : List JSVal) : Comp :=
  fun st => { st with calls := st.calls ++ [args] }

/-- Observer two-argument callback: logs `(err, data)` as received. -/
def recordCall2 : JSVal → JSVal → Comp :=
  fun e d => record [e, d]

/-- Observer callback wrapped as a `CB` function value. -/
def recordCB : CB := CB.func recordCall2

/-- The state of a freshly constructed driver: `this.heading = 0`, with
empty event logs. -/
def initSt : St := { heading := 0, writes := [], calls := [] }

/-- Embedding of `BB8Driver.prototype._writeServiceCharacteristic`:
wraps the value in a `Buffer`, hands the write to the transport, and on
completion invokes the callback with `(err, data)` if and only if the
callback is a function. -/
def writeServiceCharacteristic (tr : Transport) (s c : String) (value : JSVal)
    (callback : CB) : Comp :=
  fun st =>
    let idx := st.writes.length
    let st1 : St :=
      { st with writes := st.writes ++ [{ service := s, char := c, value := JSVal.buffer value }] }
    match callback with
    | CB.func f => f (tr idx).1 (tr idx).2 st1
    | CB.nonfunc _ => st1

/-- Embedding of `BB8Driver.prototype._readServiceCharacteristic`:
direct pass-through of the transport's read result to the callback. -/
def readServiceCharacteristic (res : JSVal × JSVal)
    (callback : JSVal → JSVal → Comp) : Comp :=
  callback res.1 res.2

/-- Embedding of `BB8Driver.prototype.getServiceCharacteristic`: looks up
the characteristic on the transport and normalizes the callback shape —
`callback(error)` with no second argument on a truthy error, otherwise
`callback(null, notifier)`. -/
def getServiceCharacteristic (res : JSVal × JSVal)
    (callback : List JSVal → Comp) : Comp :=
  if truthy res.1 then callback [res.1] else callback [JSVal.null, res.2]

/-- Embedding of `BB8Driver.prototype.wake`: writes the literal value `1`
to the wake characteristic of the BLE service. -/
def wake (tr : Transport) (callback : CB) : Comp :=
  writeServiceCharacteristic tr BLE_SERVICE BLE_WAKE (JSVal.num 1) callback

/-- Embedding of `BB8Driver.prototype.setTXPower`: writes `level` to the
TX-power characteristic of the BLE service. -/
def setTXPower (tr : Transport) (level : Int) (callback : CB) : Comp :=
  writeServiceCharacteristic tr BLE_SERVICE BLE_TX_POWER (JSVal.num level) callback

/-- The `charCodeAt` loop of `setAntiDos`: the character codes of a
string, in order. -/
def stringToBytes (s : String) : List Nat :=
  s.data.map Char.toNat

/-- Embedding of `BB8Driver.prototype.setAntiDos`: writes the character
codes of the literal string `"011i3"` to the anti-DoS characteristic of
the BLE service. -/
def setAntiDos (tr : Transport) (callback : CB) : Comp :=
  writeServiceCharacteristic tr BLE_SERVICE BLE_ANTI_DOS
    (JSVal.bytes (stringToBytes "011i3")) callback

/-- Embedding of `BB8Driver.prototype.devModeOn`: `setAntiDos`, then
`setTXPower(7)`, then `wake`, each step chained in the previous step's
completion callback; the inner closures ignore the `(err, data)` of the
completed step, and the user's callback receives the wake result. -/
def devModeOn (tr : Transport) (callback : JSVal → JSVal → Comp) : Comp :=
  setAntiDos tr (CB.func (fun _ _ =>
    setTXPower tr 7 (CB.func (fun _ _ =>
      wake tr (CB.func (fun err data =>
        callback err data))))))

/-- Embedding of `BB8Driver.prototype.setRGB`. -/
def setRGB (tr : Transport) (color : Int) (persist : Bool) (callback : CB) : Comp :=
  writeServiceCharacteristic tr ROBOT_SERVICE ROBOT_COMMAND
    (JSVal.packet (Packet.apiSetRGB color persist rtOpts)) callback

/-- Embedding of `BB8Driver.prototype.roll`: stores `heading` into the
instance state, then writes the encoder-built roll packet to the robot
command characteristic. -/
def roll (tr : Transport) (speed heading state : Int) (callback : CB) : Comp :=
  fun st =>
    let st1 : St := { st with heading := heading }
    writeServiceCharacteristic tr ROBOT_SERVICE ROBOT_COMMAND
      (JSVal.packet (Packet.apiRoll speed heading state rtOpts)) callback st1

/-- Embedding of `BB8Driver.prototype.stop`: delegates to
`roll(0, this.heading, 1, callback)`. -/
def stop (tr : Transport) (callback : CB) : Comp :=
  fun st => roll tr 0 st.heading 1 callback st

/-- Embedding of `BB8Driver.prototype.setRawMotorValues`. -/
def setRawMotorValues (tr : Transport) (lm lp rm rp : Int) (callback : CB) : Comp :=
  writeServiceCharacteristic tr ROBOT_SERVICE ROBOT_COMMAND
    (JSVal.packet (Packet.apiSetRawMotorValues lm lp rm rp rtOpts)) callback

/-- Embedding of `BB8Driver.prototype.setStabilization`. -/
def setStabilization (tr : Transport) (enable : Int) (callback : CB) : Comp :=
  writeServiceCharacteristic tr ROBOT_SERVICE ROBOT_COMMAND
    (JSVal.packet (Packet.apiSetStabilization enable rtOpts)) callback

/-- Embedding of `BB8Driver.prototype.setDataStreaming`. -/
def setDataStreaming (tr : Transport)
    (sensorRateDivisor frames mask packetCount mask2 : Int) (callback : CB) : Comp :=
  writeServiceCharacteristic tr ROBOT_SERVICE ROBOT_COMMAND
    (JSVal.packet (Packet.apiSetDataStreaming sensorRateDivisor frames mask
      packetCount mask2 rtAckOpts)) callback

/-- Embedding of `BB8Driver.prototype.getDeviceMode`. -/
def getDeviceMode (tr : Transport) (callback : CB) : Comp :=
  writeServiceCharacteristic tr ROBOT_SERVICE ROBOT_COMMAND
    (JSVal.packet (Packet.apiGetDeviceMode rtAckOpts)) callback

/-- Embedding of `BB8Driver.prototype.getRGB`. -/
def getRGB (tr : Transport) (callback : CB) : Comp :=
  writeServiceCharacteristic tr ROBOT_SERVICE ROBOT_COMMAND
    (JSVal.packet (Packet.apiGetRGB rtAckOpts)) callback

/-- Embedding of `BB8Driver.prototype.getPowerState` (uses the `core`
encoder family). -/
def getPowerState (tr : Transport) (callback : CB) : Comp :=
  writeServiceCharacteristic tr ROBOT_SERVICE ROBOT_COMMAND
    (JSVal.packet (Packet.coreGetPowerState rtAckOpts)) callback

/-- Embedding of `BB8Driver.prototype.getChassisID`. -/
def getChassisID (tr : Transport) (callback : CB) : Comp :=
  writeServiceCharacteristic tr ROBOT_SERVICE ROBOT_COMMAND
    (JSVal.packet (Packet.apiGetChassisID rtAckOpts)) callback

/-- Embedding of `BB8Driver.prototype.start`: logs and immediately
invokes `callback()` with no arguments. -/
def start (callback : List JSVal → Comp) : Comp :=
  callback []

/-- Embedding of `BB8Driver.prototype.halt`: logs and immediately invokes
`callback()` with no arguments. -/
def halt (callback : List JSVal → Comp) : Comp :=
  callback []

/-- Tags identifying the driver's prototype methods, used as the values
of the `commands` mapping. -/
inductive OpName
  | wake
  | setTXPower
  | setRGB
  | roll
  | stop
  | setRawMotorValues
  | setStabilization
  | devModeOn
  | setAntiDos
  | setDataStreaming
  | getDeviceMode
  | getRGB
  | getChassisID
  | getPowerState
  deriving DecidableEq, Repr

/-- The `commands` mapping installed by the `BB8Driver` constructor:
operation name to method, exactly the seven entries the source registers. -/
def commands : List (String × OpName) :=
  [("wake", OpName.wake),
   ("setTXPower", OpName.setTXPower),
   ("setRGB", OpName.setRGB),
   ("roll", OpName.roll),
   ("stop", OpName.stop),
   ("setRawMotorValues", OpName.setRawMotorValues),
   ("setStabilization", OpName.setStabilization)]

/-- The write `setAntiDos` issues. -/
def antiDosWrite : Write :=
  { service := BLE_SERVICE, char := BLE_ANTI_DOS,
    value := JSVal.buffer (JSVal.bytes (stringToBytes "011i3")) }

/-- The write `setTXPower level` issues. -/
def txPowerWrite (level : Int) : Write :=
  { service := BLE_SERVICE, char := BLE_TX_POWER,
    value := JSVal.buffer (JSVal.num level) }

/-- The write `wake` issues. -/
def wakeWrite : Write :=
  { service := BLE_SERVICE, char := BLE_WAKE, value := JSVal.buffer (JSVal.num 1) }

/-- The write `roll speed heading state` issues. -/
def rollWrite (speed heading state : Int) : Write :=
  { service := ROBOT_SERVICE, char := ROBOT_COMMAND,
    value := JSVal.buffer (JSVal.packet (Packet.apiRoll speed heading state rtOpts)) }

end BB8

namespace BB8

/-- C9: for every integer level and observer callback, `setTXPower`
issues exactly one write, to the BLE service's TX-power characteristic,
with payload `level`, and the callback receives the transport's
`(error, data)` result unchanged; the heading is untouched. -/
theorem setTXPower_single_write (tr : Transport) (level : Int) (st : St) :
    (setTXPower tr level recordCB st).writes = st.writes ++ [txPowerWrite level] ∧
    (setTXPower tr level recordCB st).calls
      = st.calls ++ [[(tr st.writes.length).1, (tr st.writes.length).2]] ∧
    (setTXPower tr level recordCB st).heading = st.heading :=
  ⟨rfl, rfl, rfl⟩

/-- C8: every call to `setAntiDos`, from any driver state, writes exactly
the fixed byte sequence `[0x30, 0x31, 0x31, 0x69, 0x33]` (the character
codes of `"011i3"`) to the BLE service's anti-DoS characteristic. -/
theorem setAntiDos_fixed_bytes (tr : Transport) (st : St) :
    stringToBytes "011i3" = [0x30, 0x31, 0x31, 0x69, 0x33] ∧
    (setAntiDos tr recordCB st).writes
      = st.writes ++ [{ service := BLE_SERVICE, char := BLE_ANTI_DOS,
                        value := JSVal.buffer (JSVal.bytes [0x30, 0x31, 0x31, 0x69, 0x33]) }] :=
  ⟨rfl, rfl⟩

/-- C3: `roll` first stores `heading` into the instance state and then
performs exactly one write of the encoder-built roll packet from
`(speed, heading, state, resetTimeout)` to the robot command
characteristic. -/
theorem roll_sets_heading_then_writes (tr : Transport) (speed heading state : Int)
    (cb : CB) (st : St) :
    roll tr speed heading state cb st
      = writeServiceCharacteristic tr ROBOT_SERVICE ROBOT_COMMAND
          (JSVal.packet (Packet.apiRoll speed heading state rtOpts)) cb
          { st with heading := heading } ∧
    (roll tr speed heading state recordCB st).heading = heading ∧
    (roll tr speed heading state recordCB st).writes
      = st.writes ++ [rollWrite speed heading state] :=
  ⟨rfl, rfl, rfl⟩

/-- C2: whenever the stored heading equals `h`, `stop` behaves exactly as
`roll 0 h 1` with the same callback, issuing one zero-speed roll write at
heading `h` with roll state `1` to the robot command characteristic. -/
theorem stop_delegates_to_roll (tr : Transport) (cb : CB) (st : St) (h : Int)
    (hh : st.heading = h) :
    stop tr cb st = roll tr 0 h 1 cb st ∧
    (stop tr recordCB st).writes = st.writes ++ [rollWrite 0 h 1] := by
  subst hh
  exact ⟨rfl, rfl⟩

/-- Witness for C2: after `roll 50 90 1` has set the heading to 90,
`stop` coincides with `roll 0 90 1`. -/
theorem stop_delegates_to_roll_witness :
    ({ heading := 90, writes := [], calls := [] } : St).heading = 90 ∧
    (stop (fun _ => (JSVal.null, JSVal.null)) (CB.nonfunc JSVal.undef)
        { heading := 90, writes := [], calls := [] }
      = roll (fun _ => (JSVal.null, JSVal.null)) 0 90 1 (CB.nonfunc JSVal.undef)
        { heading := 90, writes := [], calls := [] } ∧
     (stop (fun _ => (JSVal.null, JSVal.null)) recordCB
        { heading := 90, writes := [], calls := [] }).writes
       = [] ++ [rollWrite 0 90 1]) :=
  ⟨rfl, stop_delegates_to_roll (fun _ => (JSVal.null, JSVal.null))
    (CB.nonfunc JSVal.undef) { heading := 90, writes := [], calls := [] } 90 rfl⟩

/-- C1: `devModeOn` issues exactly three writes, in order: the anti-DoS
bytes, TX power 7, then wake value 1 (each chained in the previous
step's completion callback), and the user callback is invoked exactly
once, with the transport's result of the third (wake) write. -/
theorem devModeOn_three_sequential_writes (tr : Transport) (st : St) :
    (devModeOn tr recordCall2 st).writes
      = st.writes ++ [antiDosWrite, txPowerWrite 7, wakeWrite] ∧
    (devModeOn tr recordCall2 st).calls
      = st.calls ++ [[(tr (st.writes.length + 2)).1, (tr (st.writes.length + 2)).2]] := by
  constructor
  · simp [devModeOn, setAntiDos, setTXPower, wake, writeServiceCharacteristic,
      recordCall2, record, antiDosWrite, txPowerWrite, wakeWrite]
  · simp [devModeOn, setAntiDos, setTXPower, wake, writeServiceCharacteristic,
      recordCall2, record]

/-- C4: whatever `(error, data)` results the transport reports for the
anti-DoS write and the TX-power write — truthy errors included — the
chain in `devModeOn` does not inspect them and still issues all three
writes. -/
theorem devModeOn_ignores_intermediate_errors (tr : Transport) (st : St)
    (e1 d1 e2 d2 : JSVal)
    (_h1 : tr st.writes.length = (e1, d1))
    (_h2 : tr (st.writes.length + 1) = (e2, d2)) :
    (devModeOn tr recordCall2 st).writes
      = st.writes ++ [antiDosWrite, txPowerWrite 7, wakeWrite] := by
  simp [devModeOn, setAntiDos, setTXPower, wake, writeServiceCharacteristic,
    recordCall2, record, antiDosWrite, txPowerWrite, wakeWrite]

/-- Witness for C4: with a transport reporting a truthy error object on
every step, all three writes are still issued. -/
theorem devModeOn_ignores_intermediate_errors_witness :
    (fun _ => (JSVal.errObj 0, JSVal.null) : Transport) initSt.writes.length
        = (JSVal.errObj 0, JSVal.null) ∧
    (devModeOn (fun _ => (JSVal.errObj 0, JSVal.null)) recordCall2 initSt).writes
      = initSt.writes ++ [antiDosWrite, txPowerWrite 7, wakeWrite] :=
  ⟨rfl, devModeOn_ignores_intermediate_errors (fun _ => (JSVal.errObj 0, JSVal.null))
    initSt (JSVal.errObj 0) JSVal.null (JSVal.errObj 0) JSVal.null rfl rfl⟩

/-- C6: the internal write primitive invokes the callback if and only if
it is a function: with a non-function callback the result state is
exactly the write appended (no error, no callback invocation, result
discarded); with a function callback it is invoked with the transport's
`(error, data)` unchanged. -/
theorem writeServiceCharacteristic_callback_iff_function (tr : Transport)
    (s c : String) (v w : JSVal) (st : St) :
    writeServiceCharacteristic tr s c v (CB.nonfunc w) st
      = { st with
          writes := st.writes ++ [{ service := s, char := c, value := JSVal.buffer v }] } ∧
    writeServiceCharacteristic tr s c v recordCB st
      = { st with
          writes := st.writes ++ [{ service := s, char := c, value := JSVal.buffer v }],
          calls := st.calls ++ [[(tr st.writes.length).1, (tr st.writes.length).2]] } :=
  ⟨rfl, rfl⟩

/-- C7: `getServiceCharacteristic` normalizes the transport's lookup
result: a truthy error is delivered as `callback(error)` with no second
argument, otherwise the callback receives `(null, notifier)`. -/
theorem getServiceCharacteristic_normalizes (error notif : JSVal) (st : St) :
    (getServiceCharacteristic (error, notif) record st).calls
      = st.calls ++ [if truthy error then [error] else [JSVal.null, notif]] := by
  cases h : truthy error <;> simp [getServiceCharacteristic, record, h]

/-- Counterexample for C5: the `commands` mapping the constructor
installs has no entry named `devModeOn` (nor, a fortiori, entries for
setAntiDos, setDataStreaming or the four getters). -/
theorem commands_missing_devModeOn :
    ¬ ("devModeOn" ∈ commands.map Prod.fst) := by decide

/-- C5 (amended): a fresh driver exposes `start` and `halt`, which
immediately invoke their callback with no arguments, and a `commands`
mapping whose entries are exactly wake, setTXPower, setRGB, roll, stop,
setRawMotorValues and setStabilization. -/
theorem commands_exposes_seven_operations :
    commands.map Prod.fst
      = ["wake", "setTXPower", "setRGB", "roll", "stop", "setRawMotorValues",
         "setStabilization"] ∧
    (∀ (cb : List JSVal → Comp) (st : St), start cb st = cb [] st) ∧
    (∀ (cb : List JSVal → Comp) (st : St), halt cb st = cb [] st) :=
  ⟨rfl, fun _ _ => rfl, fun _ _ => rfl⟩

/-- C10: the heading field is 0 at construction; every operation other
than `roll` (observed with logging callbacks, which touch no state
beyond the call log) leaves the stored heading unchanged; `roll` stores
its heading argument, and `stop` re-stores the prior value. -/
theorem heading_frame_conditions :
    initSt.heading = 0 ∧
    (∀ (tr : Transport) (st : St), (wake tr recordCB st).heading = st.heading) ∧
    (∀ (tr : Transport) (level : Int) (st : St),
      (setTXPower tr level recordCB st).heading = st.heading) ∧
    (∀ (tr : Transport) (st : St),
      (devModeOn tr recordCall2 st).heading = st.heading) ∧
    (∀ (tr : Transport) (st : St), (setAntiDos tr recordCB st).heading = st.heading) ∧
    (∀ (tr : Transport) (color : Int) (persist : Bool) (st : St),
      (setRGB tr color persist recordCB st).heading = st.heading) ∧
    (∀ (tr : Transport) (lm lp rm rp : Int) (st : St),
      (setRawMotorValues tr lm lp rm rp recordCB st).heading = st.heading) ∧
    (∀ (tr : Transport) (enable : Int) (st : St),
      (setStabilization tr enable recordCB st).heading = st.heading) ∧
    (∀ (tr : Transport) (a b c d e : Int) (st : St),
      (setDataStreaming tr a b c d e recordCB st).heading = st.heading) ∧
    (∀ (tr : Transport) (st : St), (getDeviceMode tr recordCB st).heading = st.heading) ∧
    (∀ (tr : Transport) (st : St), (getRGB tr recordCB st).heading = st.heading) ∧
    (∀ (tr : Transport) (st : St), (getChassisID tr recordCB st).heading = st.heading) ∧
    (∀ (tr : Transport) (st : St), (getPowerState tr recordCB st).heading = st.heading) ∧
    (∀ st : St, (start record st).heading = st.heading) ∧
    (∀ st : St, (halt record st).heading = st.heading) ∧
    (∀ (tr : Transport) (s c : String) (v w : JSVal) (st : St),
      (writeServiceCharacteristic tr s c v (CB.nonfunc w) st).heading = st.heading) ∧
    (∀ (tr : Transport) (s c : String) (v : JSVal) (st : St),
      (writeServiceCharacteristic tr s c v recordCB st).heading = st.heading) ∧
    (∀ (res : JSVal × JSVal) (st : St),
      (readServiceCharacteristic res recordCall2 st).heading = st.heading) ∧
    (∀ (res : JSVal × JSVal) (st : St),
      (getServiceCharacteristic res record st).heading = st.heading) ∧
    (∀ (tr : Transport) (speed h s : Int) (st : St),
      (roll tr speed h s recordCB st).heading = h) ∧
    (∀ (tr : Transport) (st : St), (stop tr recordCB st).heading = st.heading) := by
  refine ⟨rfl, fun _ _ => rfl, fun _ _ _ => rfl, fun _ _ => rfl, fun _ _ => rfl,
    fun _ _ _ _ => rfl, fun _ _ _ _ _ _ => rfl, fun _ _ _ => rfl,
    fun _ _ _ _ _ _ _ => rfl, fun _ _ => rfl, fun _ _ => rfl, fun _ _ => rfl,
    fun _ _ => rfl, fun _ => rfl, fun _ => rfl, fun _ _ _ _ _ _ => rfl,
    fun _ _ _ _ _ => rfl, fun _ _ => rfl, ?_, fun _ _ _ _ _ => rfl, fun _ _ => rfl⟩
  intro res st
  unfold getServiceCharacteristic record
  split <;> rfl

end BB8
